import Mathlib

/-!
Shallow embedding of `github_activity/graphql.py` (class `GitHubGraphQlQuery`),
the pagination / query-assembly / result-aggregation driver of the
`github-activity` repository, together with proofs about its behaviour.

The embedding models:
* the GraphQL query-document assembly (`comments_query`, `base_elements`,
  `gql_template`, the `github_search_query` list and its `', '.join`);
* the per-page HTTP response classification (`status_code != 200` raises,
  a present top-level `errors` key raises);
* the pagination loop of `GitHubGraphQlQuery.request` (lines 116-166),
  with the remote side abstracted as a function from the fetch index to the
  HTTP response it returns;
* the final aggregation into a table (lines 168-174): `pd.DataFrame` over the
  collected nodes followed by the three column maps for `author`, `org`,
  `repo`.

Python-level partiality is made explicit: list indexing out of range is an
`IndexError`, column access on an empty `pd.DataFrame` (which has no columns)
is a `KeyError`; both become error values of an `Except`.
-/

namespace GithubActivity

/-! ## Query-document assembly (source lines 10-74 and 117-129) -/

/-- Embedding of the Python `comments_query` triple-quoted string
(source lines 10-24).  Literal braces are written with `\x7b` / `\x7d`. -/
def commentsQuery : String :=
  "        comments(last: 100) \x7b\n          edges \x7b\n            node \x7b\n              authorAssociation\n              createdAt\n              updatedAt\n              url\n              author \x7b\n                login\n              \x7d\n            \x7d\n          \x7d\n        \x7d\n"

/-- Embedding of the Python `base_elements` triple-quoted string
(source lines 26-46). -/
def baseElements : String :=
  "        state\n        id\n        title\n        url\n        createdAt\n        updatedAt\n        closedAt\n        labels(first: 10) \x7b\n            edges \x7b\n                node \x7b\n                    name\n                \x7d\n            \x7d\n        \x7d\n        number\n        authorAssociation\n        author \x7b\n          login\n        \x7d\n"

/-- The part of `gql_template` (source lines 48-74) that precedes the
`{query}` placeholder, after `.format` has replaced `{{`/`}}` by braces. -/
def gqlTemplatePre : String := "\x7b\n  search("

/-- The part of `gql_template` that follows the `{query}` placeholder, with
the `{base_elements}` and `{comments}` placeholders already substituted, as
`gql_template.format(...)` does on source lines 125-129. -/
def gqlTemplatePost : String :=
  ") \x7b\n    issueCount\n    pageInfo \x7b\n        endCursor\n        hasNextPage\n    \x7d\n    nodes \x7b\n      ... on PullRequest \x7b\n        " ++ baseElements ++ "\n        mergedBy \x7b\n          login\n        \x7d\n        mergeCommit \x7b\n          oid\n        \x7d\n        " ++ commentsQuery ++ "\n      \x7d\n      ... on Issue \x7b\n        " ++ baseElements ++ "\n        " ++ commentsQuery ++ "\n      \x7d\n    \x7d\n  \x7d\n\x7d\n"

/-- Python's `'%s' % x` for an optional string: `None` is rendered as the
four-character text `None` (this is what happens on source line 123 when
`pageInfo['endCursor']` is `null`). -/
def pyStrOpt : Option String → String
  | none => "None"
  | some s => s

/-- The `github_search_query` list of source lines 117-123: the three base
clauses, plus — exactly when `ii != 0` — the `after:` clause rendered from
the previous page's `endCursor`. -/
def githubSearchQuery (query : String) (nPerPage ii : Nat) (cursor : Option String) :
    List String :=
  let base := ["first: " ++ toString nPerPage,
               "query: \"" ++ query ++ "\"",
               "type: ISSUE"]
  if ii ≠ 0 then base ++ ["after: \"" ++ pyStrOpt cursor ++ "\""] else base

/-- Python's `', '.join` (source line 126). -/
def joinComma : List String → String
  | [] => ""
  | [x] => x
  | x :: y :: xs => x ++ ", " ++ joinComma (y :: xs)

/-- The full query document `ii_gql_query` built on source lines 125-129 for
loop iteration `ii`. -/
def buildDoc (query : String) (nPerPage ii : Nat) (cursor : Option String) : String :=
  gqlTemplatePre ++ joinComma (githubSearchQuery query nPerPage ii cursor) ++ gqlTemplatePost

/-! ## Pages, HTTP responses and their classification (source lines 130-138) -/

/-- The nested `author` mapping of a raw record (`{login: ...}`). -/
structure Author where
  login : String
deriving DecidableEq, Repr

/-- One raw issue-or-PR node as consumed by lines 158 and 172-174: the
`author` sub-mapping (possibly `null` for deleted accounts) and the `url`
string.  The remaining GraphQL fields are carried opaquely and never
inspected by the driver. -/
structure RawRecord where
  author : Option Author
  url : String
deriving DecidableEq, Repr

/-- The decoded `json['data']['search']` payload of one page
(source lines 138-159): `issueCount`, `pageInfo.endCursor`,
`pageInfo.hasNextPage` and the `nodes` list. -/
structure Page where
  issueCount : Nat
  endCursor : Option String
  hasNextPage : Bool
  nodes : List RawRecord
deriving DecidableEq, Repr

/-- One HTTP response as seen by lines 130-138: the status code, whether the
decoded JSON body has a top-level `errors` key, and the `data.search`
payload used when neither check raises. -/
structure HttpResponse where
  status : Nat
  hasErrorsKey : Bool
  search : Page
deriving DecidableEq, Repr

/-- Result of one fetch after the two checks of lines 131-134. -/
inductive FetchResult where
  /-- Line 131-132: `status_code != 200` raises (transport-level failure). -/
  | transportError (status : Nat)
  /-- Line 133-134: a top-level `errors` key raises (application-level
  failure), reached only when the status check passed. -/
  | remoteError
  /-- Both checks passed; the page payload is used. -/
  | ok (page : Page)
deriving DecidableEq, Repr

/-- Lines 131-138: classify one HTTP response.  The status check runs first;
the `errors`-key check only runs for a 200 response. -/
def classifyResponse (resp : HttpResponse) : FetchResult :=
  if resp.status ≠ 200 then .transportError resp.status
  else if resp.hasErrorsKey then .remoteError
  else .ok resp.search

/-! ## Normalization and final aggregation (source lines 168-174) -/

/-- The Python exceptions that the aggregation step can raise. -/
inductive NormError where
  /-- pandas `KeyError`: `self.data['author']` on line 172 when
  `pd.DataFrame(self.issues_and_or_prs)` was built from an empty list and
  therefore has no columns at all. -/
  | keyError
  /-- Python `IndexError` from `a.split('/')[i]` on lines 173-174 when the
  split produces at most `i` segments. -/
  | indexError (i : Nat)
deriving DecidableEq, Repr

/-- Python's `s.split(c)` for a one-character separator `c`: splits on every
occurrence, keeping empty segments; `''.split(c) == ['']`. -/
def pySplit (c : Char) (s : String) : List String :=
  go s.data []
where
  /-- Walk the characters, accumulating the current segment in reverse. -/
  go : List Char → List Char → List String
    | [], cur => [String.mk cur.reverse]
    | x :: xs, cur =>
      if x = c then String.mk cur.reverse :: go xs []
      else go xs (x :: cur)

/-- The `author` column map of line 172:
`lambda a: a['login'] if a is not None else a`.  Total: a `null` author is
passed through unchanged, so the result for it is the absent marker. -/
def pyAuthorMap (a : Option Author) : Option String :=
  match a with
  | some m => some m.login
  | none => none

/-- The `org` cell of one row, line 173: `a.split('/')[3]`; `none` when the
index is out of range (Python would raise `IndexError`). -/
def orgOf (url : String) : Option String := (pySplit '/' url)[3]?

/-- The `repo` cell of one row, line 174: `a.split('/')[4]`. -/
def repoOf (url : String) : Option String := (pySplit '/' url)[4]?

/-- One normalized row of the final table: the flattened `author` column and
the derived `org` / `repo` columns added on lines 172-174. -/
structure FlatRecord where
  author : Option String
  org : String
  repo : String
deriving DecidableEq, Repr

/-- Normalization of a single raw record: the row-level composition of the
three column maps of lines 172-174 (for one row the column-by-column order of
the source visits the same three cells).  The `author` map cannot fail; the
`org` map raises `IndexError` before the `repo` map is reached. -/
def normalizeRecord (r : RawRecord) : Except NormError FlatRecord :=
  match orgOf r.url with
  | none => .error (.indexError 3)
  | some org =>
    match repoOf r.url with
    | none => .error (.indexError 4)
    | some repo => .ok ⟨pyAuthorMap r.author, org, repo⟩

/-- One whole column of cells, stopping at the first failing row, as the
column-wise maps of lines 173-174 do. -/
def columnOf (i : Nat) (rs : List RawRecord) : Except NormError (List String) :=
  rs.mapM fun r =>
    match (pySplit '/' r.url)[i]? with
    | none => .error (NormError.indexError i)
    | some v => .ok v

/-- Zip the three computed columns back into rows. -/
def zipRows : List (Option String) → List String → List String → List FlatRecord
  | a :: as, o :: os, p :: ps => ⟨a, o, p⟩ :: zipRows as os ps
  | _, _, _ => []

/-- Lines 168-174: build `pd.DataFrame(self.issues_and_or_prs)` and add the
three columns.  A DataFrame built from an empty list has no columns, so the
very first column access `self.data['author']` raises `KeyError`; otherwise
the `author` column map is total, then the `org` column map runs over all
rows, then the `repo` column map. -/
def finalizeTable (rs : List RawRecord) : Except NormError (List FlatRecord) :=
  if rs.isEmpty then .error .keyError
  else
    let authors := rs.map fun r => pyAuthorMap r.author
    match columnOf 3 rs with
    | .error e => .error e
    | .ok orgs =>
      match columnOf 4 rs with
      | .error e => .error e
      | .ok repos => .ok (zipRows authors orgs repos)

/-- Line 145: `n_pages = int(np.ceil(json['issueCount'] / n_per_page))`,
read over exact arithmetic.  Note (Python semantics): this reassignment does
not shrink the already-created `range(n_pages)` that the loop iterates over;
the value is only used for the progress widget. -/
def computedNPages (issueCount nPerPage : Nat) : Int :=
  ⌈(issueCount : ℚ) / (nPerPage : ℚ)⌉

/-! ## The pagination loop (source lines 104-174) -/

/-- How one call of `request` can end. -/
inductive Outcome where
  /-- Lines 140-143: `issueCount == 0` on the first page sets
  `self.data = pd.DataFrame()` (an empty table) and returns — a success. -/
  | emptyResult
  /-- Lines 168-174 ran after the loop ended (via `break` or exhaustion of
  `range(n_pages)`): `self.data` is the finalized table, or the aggregation
  raised. -/
  | table (t : Except NormError (List FlatRecord))
  /-- The exception of line 132 propagated. -/
  | transportError (status : Nat)
  /-- The exception of line 134 propagated. -/
  | remoteError
deriving Repr

/-- The value of `self.data` when the run succeeds: `emptyResult` is the
empty table of line 142, `table (.ok t)` the finalized table; failed runs
produce no table. -/
def Outcome.resultTable : Outcome → Option (List FlatRecord)
  | .emptyResult => some []
  | .table (.ok t) => some t
  | _ => none

/-- Everything observable about one run: how it ended and the query
documents of the requests it issued, in order. -/
structure RunResult where
  outcome : Outcome
  queries : List String
deriving Repr

/-- The loop body of lines 116-166, with the remote side abstracted as
`resp : Nat → HttpResponse` (the response to the `ii`-th POST of line 130).
`remaining` is the number of iterations `range(n_pages)` still holds,
`ii` the current loop index, `cursor` the previous page's
`pageInfo['endCursor']` (unused when `ii = 0`), `acc` the
`self.issues_and_or_prs` list accumulated so far.  When the range is
exhausted the code falls through to lines 168-174. -/
def runLoop (resp : Nat → HttpResponse) (query : String) (nPerPage : Nat) :
    Nat → Nat → Option String → List RawRecord → RunResult
  | 0, _, _, acc => ⟨.table (finalizeTable acc), []⟩
  | remaining + 1, ii, cursor, acc =>
    let doc := buildDoc query nPerPage ii cursor
    match classifyResponse (resp ii) with
    | .transportError s => ⟨.transportError s, [doc]⟩
    | .remoteError => ⟨.remoteError, [doc]⟩
    | .ok page =>
      if ii = 0 ∧ page.issueCount = 0 then ⟨.emptyResult, [doc]⟩
      else
        let acc2 := acc ++ page.nodes
        if page.hasNextPage = false then ⟨.table (finalizeTable acc2), [doc]⟩
        else
          let rest := runLoop resp query nPerPage remaining (ii + 1) page.endCursor acc2
          ⟨rest.outcome, doc :: rest.queries⟩

/-- `GitHubGraphQlQuery(query).request(n_pages, n_per_page)` against the
abstract remote `resp`. -/
def request (resp : Nat → HttpResponse) (query : String) (nPages nPerPage : Nat) :
    RunResult :=
  runLoop resp query nPerPage nPages 0 none []

/-- The nodes of pages `ii, ii+1, ..., ii+n-1` of the page family `pg`,
concatenated in arrival order — the contents of `self.issues_and_or_prs`
after `n` clean iterations starting at index `ii`. -/
def aggNodes (pg : Nat → Page) (ii : Nat) : Nat → List RawRecord
  | 0 => []
  | n + 1 => (pg ii).nodes ++ aggNodes pg (ii + 1) n

/-! ## General lemmas about the loop -/

theorem strAppend_assoc (a b c : String) : a ++ b ++ c = a ++ (b ++ c) := by
  rcases a with ⟨la⟩; rcases b with ⟨lb⟩; rcases c with ⟨lc⟩
  show String.mk (la ++ lb ++ lc) = String.mk (la ++ (lb ++ lc))
  rw [List.append_assoc]

theorem runLoop_queries_head (resp : Nat → HttpResponse) (q : String) (nPP : Nat)
    (remaining ii : Nat) (cursor : Option String) (acc : List RawRecord)
    (h : 0 < remaining) :
    (runLoop resp q nPP remaining ii cursor acc).queries[0]? =
      some (buildDoc q nPP ii cursor) := by
  obtain ⟨n, rfl⟩ : ∃ n, remaining = n + 1 := ⟨remaining - 1, by omega⟩
  rcases hcl : classifyResponse (resp ii) with s | _ | page <;>
    simp only [runLoop, hcl]
  · simp
  · simp
  · split
    · simp
    · split <;> simp

theorem runLoop_fetch_bound (resp : Nat → HttpResponse) (q : String) (nPP : Nat)
    (K : Nat) (pK : Page)
    (hK : classifyResponse (resp K) = .ok pK) (hfalse : pK.hasNextPage = false) :
    ∀ remaining ii cursor acc, ii ≤ K →
      (runLoop resp q nPP remaining ii cursor acc).queries.length ≤ K + 1 - ii := by
  intro remaining
  induction remaining with
  | zero => intro ii cursor acc hii; simp [runLoop]
  | succ n IH =>
    intro ii cursor acc hii
    rcases hcl : classifyResponse (resp ii) with s | _ | page <;>
      simp only [runLoop, hcl]
    · simp; omega
    · simp; omega
    · split
      · simp; omega
      · split
        · simp; omega
        · rename_i hguard hnexttrue
          have hne : ii ≠ K := by
            rintro rfl
            rw [hK] at hcl
            cases hcl
            simp [hfalse] at hnexttrue
          have := IH (ii + 1) page.endCursor (acc ++ page.nodes) (by omega)
          simp only [List.length_cons]
          omega

theorem runLoop_clean (resp : Nat → HttpResponse) (q : String) (nPP : Nat)
    (pg : Nat → Page)
    (hok : ∀ j, classifyResponse (resp j) = .ok (pg j))
    (hnext : ∀ j, (pg j).hasNextPage = true)
    (hic : (pg 0).issueCount ≠ 0) :
    ∀ remaining ii cursor acc,
      (runLoop resp q nPP remaining ii cursor acc).outcome =
          .table (finalizeTable (acc ++ aggNodes pg ii remaining))
        ∧ (runLoop resp q nPP remaining ii cursor acc).queries.length = remaining := by
  intro remaining
  induction remaining with
  | zero => intro ii cursor acc; simp [runLoop, aggNodes]
  | succ n IH =>
    intro ii cursor acc
    have h1 := hok ii
    simp only [runLoop, h1]
    have h2 : ¬ (ii = 0 ∧ (pg ii).issueCount = 0) := by
      rintro ⟨rfl, h⟩; exact hic h
    rw [if_neg h2]
    have h3 : ¬ ((pg ii).hasNextPage = false) := by simp [hnext ii]
    rw [if_neg h3]
    obtain ⟨o1, o2⟩ := IH (ii + 1) (pg ii).endCursor (acc ++ (pg ii).nodes)
    refine ⟨?_, ?_⟩
    · simpa [aggNodes, List.append_assoc] using o1
    · simpa using o2

theorem runLoop_stop (resp : Nat → HttpResponse) (q : String) (nPP : Nat)
    (pg : Nat → Page) :
    ∀ m ii remaining cursor acc,
      m < remaining →
      (∀ j, j < m → classifyResponse (resp (ii + j)) = .ok (pg (ii + j))
          ∧ (pg (ii + j)).hasNextPage = true
          ∧ (ii + j = 0 → (pg (ii + j)).issueCount ≠ 0)) →
      classifyResponse (resp (ii + m)) = .ok (pg (ii + m)) →
      (pg (ii + m)).hasNextPage = false →
      (ii + m = 0 → (pg (ii + m)).issueCount ≠ 0) →
      (runLoop resp q nPP remaining ii cursor acc).outcome =
          .table (finalizeTable (acc ++ aggNodes pg ii (m + 1)))
        ∧ (runLoop resp q nPP remaining ii cursor acc).queries.length = m + 1 := by
  intro m
  induction m with
  | zero =>
    intro ii remaining cursor acc hrem hclean hK hfalse hic
    obtain ⟨n, rfl⟩ : ∃ n, remaining = n + 1 := ⟨remaining - 1, by omega⟩
    rw [Nat.add_zero] at hK hfalse hic
    simp only [runLoop, hK]
    have h2 : ¬ (ii = 0 ∧ (pg ii).issueCount = 0) := by
      rintro ⟨rfl, h⟩; exact hic rfl h
    rw [if_neg h2, if_pos hfalse]
    simp [aggNodes]
  | succ k IH =>
    intro ii remaining cursor acc hrem hclean hK hfalse hic
    obtain ⟨n, rfl⟩ : ∃ n, remaining = n + 1 := ⟨remaining - 1, by omega⟩
    obtain ⟨c1, c2, c3⟩ := hclean 0 (by omega)
    rw [Nat.add_zero] at c1 c2 c3
    simp only [runLoop, c1]
    have h2 : ¬ (ii = 0 ∧ (pg ii).issueCount = 0) := by
      rintro ⟨rfl, h⟩; exact c3 rfl h
    rw [if_neg h2]
    have h3 : ¬ ((pg ii).hasNextPage = false) := by simp [c2]
    rw [if_neg h3]
    have heq : ∀ j, (ii + 1) + j = ii + (j + 1) := by omega
    obtain ⟨o1, o2⟩ := IH (ii + 1) n (pg ii).endCursor (acc ++ (pg ii).nodes)
      (by omega)
      (fun j hj => by rw [heq j]; exact hclean (j + 1) (by omega))
      (by rw [heq k]; exact hK)
      (by rw [heq k]; exact hfalse)
      (by rw [heq k]; exact hic)
    refine ⟨?_, ?_⟩
    · simpa [aggNodes, List.append_assoc] using o1
    · simpa using o2


/-! ## Claim C1 -/

/-- Claim C1, amended.  A run in which all `maxPages` (`n_pages`) fetches
succeed and every page reports `hasNextPage: true` does not fail: the loop
simply exhausts `range(n_pages)` after exactly `nPages` fetches and the code
falls through to lines 168-174, returning the records aggregated so far as an
ordinary, complete-looking result table.  The source has no `Failed` state
and no `PaginationExhausted` error. -/
theorem request_page_cap_completes_normally
    (resp : Nat → HttpResponse) (query : String) (nPages nPerPage : Nat)
    (pg : Nat → Page)
    (hok : ∀ j, classifyResponse (resp j) = .ok (pg j))
    (hnext : ∀ j, (pg j).hasNextPage = true)
    (hic : (pg 0).issueCount ≠ 0) :
    (request resp query nPages nPerPage).outcome =
        .table (finalizeTable (aggNodes pg 0 nPages))
      ∧ (request resp query nPages nPerPage).queries.length = nPages := by
  have h := runLoop_clean resp query nPerPage pg hok hnext hic nPages 0 none []
  simpa [request] using h

/-- Witness for `request_page_cap_completes_normally` at a concrete
three-page run. -/
theorem request_page_cap_witness :
    (request (fun _ => ⟨200, false, ⟨5, some "c", true,
        [⟨some ⟨"bob"⟩, "https://github.com/O/R/issues/1"⟩]⟩⟩) "q" 3 50).outcome =
      .table (finalizeTable (aggNodes (fun _ => ⟨5, some "c", true,
        [⟨some ⟨"bob"⟩, "https://github.com/O/R/issues/1"⟩]⟩) 0 3))
    ∧ (request (fun _ => ⟨200, false, ⟨5, some "c", true,
        [⟨some ⟨"bob"⟩, "https://github.com/O/R/issues/1"⟩]⟩⟩) "q" 3 50).queries.length = 3 :=
  request_page_cap_completes_normally _ "q" 3 50 _
    (fun _ => rfl) (fun _ => rfl) (by decide)

/-- Counterexample to claim C1 as stated.  With `n_pages = 3` and a remote
that always answers `hasNextPage: true`, the run does NOT end in a failed
state with a `PaginationExhausted` error: it returns a successful result
table holding the three aggregated records, presented exactly like a
complete result (`resultTable` is `some`, not a failure). -/
theorem request_page_cap_cex :
    (request (fun _ => ⟨200, false, ⟨5, some "c", true,
        [⟨some ⟨"bob"⟩, "https://github.com/O/R/issues/1"⟩]⟩⟩) "q" 3 50).outcome.resultTable =
      some [⟨some "bob", "O", "R"⟩, ⟨some "bob", "O", "R"⟩, ⟨some "bob", "O", "R"⟩]
    ∧ (request (fun _ => ⟨200, false, ⟨5, some "c", true,
        [⟨some ⟨"bob"⟩, "https://github.com/O/R/issues/1"⟩]⟩⟩) "q" 3 50).queries.length = 3 :=
  ⟨rfl, rfl⟩

/-! ## Claim C2 -/

/-- Claim C2.  For one page fetch: a non-200 transport status fails with the
transport-error value carrying that status (line 131-132); a 200 response
whose decoded body has an `errors` key fails with the distinct remote-error
value (line 133-134); and the two failure values are distinct, inspectable
constructors of `FetchResult`. -/
theorem classifyResponse_error_kinds (resp : HttpResponse) :
    (resp.status ≠ 200 → classifyResponse resp = .transportError resp.status)
    ∧ (resp.status = 200 → resp.hasErrorsKey = true → classifyResponse resp = .remoteError)
    ∧ (∀ s, FetchResult.transportError s ≠ FetchResult.remoteError) := by
  refine ⟨fun h => ?_, fun h1 h2 => ?_, fun s h => by cases h⟩
  · simp [classifyResponse, h]
  · simp [classifyResponse, h1, h2]

/-- Witness for `classifyResponse_error_kinds`: an HTTP 401 yields the
transport error, a 200 with an `errors` list yields the remote error. -/
theorem classifyResponse_error_kinds_witness :
    classifyResponse ⟨401, false, ⟨0, none, false, []⟩⟩ = .transportError 401
    ∧ classifyResponse ⟨200, true, ⟨0, none, false, []⟩⟩ = .remoteError :=
  ⟨(classifyResponse_error_kinds ⟨401, false, ⟨0, none, false, []⟩⟩).1 (by decide),
   (classifyResponse_error_kinds ⟨200, true, ⟨0, none, false, []⟩⟩).2.1 rfl rfl⟩

/-! ## Claim C3 -/

/-- Claim C3.  When the first page reports `issueCount == 0`, the run returns
at lines 140-143 with `self.data` an empty table: exactly one query was
issued (no second fetch), the outcome is the empty-result success, and the
resulting table is the empty table. -/
theorem request_zero_count_empty_success
    (resp : Nat → HttpResponse) (query : String) (nPages nPerPage : Nat)
    (hpos : 0 < nPages)
    (hs : (resp 0).status = 200) (he : (resp 0).hasErrorsKey = false)
    (hc : (resp 0).search.issueCount = 0) :
    request resp query nPages nPerPage =
        ⟨.emptyResult, [buildDoc query nPerPage 0 none]⟩
      ∧ (request resp query nPages nPerPage).outcome.resultTable = some []
      ∧ (request resp query nPages nPerPage).queries.length = 1 := by
  obtain ⟨n, rfl⟩ : ∃ n, nPages = n + 1 := ⟨nPages - 1, by omega⟩
  have hcl : classifyResponse (resp 0) = .ok (resp 0).search := by
    simp [classifyResponse, hs, he]
  have hmain : request resp query (n + 1) nPerPage =
      ⟨.emptyResult, [buildDoc query nPerPage 0 none]⟩ := by
    simp [request, runLoop, hcl, hc]
  exact ⟨hmain, by rw [hmain]; rfl, by rw [hmain]; rfl⟩

/-- Witness for `request_zero_count_empty_success` at a concrete remote that
reports zero matching items. -/
theorem request_zero_count_witness :
    request (fun _ => ⟨200, false, ⟨0, none, false, []⟩⟩) "q" 100 50 =
        ⟨.emptyResult, [buildDoc "q" 50 0 none]⟩
    ∧ (request (fun _ => ⟨200, false, ⟨0, none, false, []⟩⟩) "q" 100 50).outcome.resultTable = some []
    ∧ (request (fun _ => ⟨200, false, ⟨0, none, false, []⟩⟩) "q" 100 50).queries.length = 1 :=
  request_zero_count_empty_success _ "q" 100 50 (by decide) rfl rfl rfl

/-! ## Claim C4 -/

/-- Claim C4.  First part: whatever the run looks like, if the `K`-th
response decodes to a page with `hasNextPage == false` then at most `K + 1`
fetches are ever issued — the driver never fetches past such a page.
Second part: if the run reaches that page cleanly (all earlier pages ok with
`hasNextPage: true`), the final page is aggregated together with the earlier
ones and the run ends in the finalized-table (Done) outcome after exactly
`K + 1` fetches. -/
theorem request_no_fetch_after_hasNext_false :
    (∀ (resp : Nat → HttpResponse) (query : String) (nPages nPerPage K : Nat) (pK : Page),
        classifyResponse (resp K) = .ok pK → pK.hasNextPage = false →
        (request resp query nPages nPerPage).queries.length ≤ K + 1)
    ∧ (∀ (resp : Nat → HttpResponse) (query : String) (nPages nPerPage K : Nat)
          (pg : Nat → Page),
        K < nPages →
        (∀ j, j < K → classifyResponse (resp j) = .ok (pg j)
            ∧ (pg j).hasNextPage = true ∧ (j = 0 → (pg j).issueCount ≠ 0)) →
        classifyResponse (resp K) = .ok (pg K) →
        (pg K).hasNextPage = false →
        (K = 0 → (pg K).issueCount ≠ 0) →
        (request resp query nPages nPerPage).outcome =
            .table (finalizeTable (aggNodes pg 0 (K + 1)))
          ∧ (request resp query nPages nPerPage).queries.length = K + 1) := by
  constructor
  · intro resp query nPages nPerPage K pK hK hfalse
    have h := runLoop_fetch_bound resp query nPerPage K pK hK hfalse nPages 0 none []
      (by omega)
    simpa [request] using h
  · intro resp query nPages nPerPage K pg hlt hclean hK hfalse hic
    have h := runLoop_stop resp query nPerPage pg K 0 nPages none [] hlt
      (fun j hj => by simpa using hclean j hj)
      (by simpa using hK) (by simpa using hfalse) (by simpa using hic)
    simpa [request] using h

/-- Witness for `request_no_fetch_after_hasNext_false`: a remote whose very
first page says `hasNextPage: false` leads to at most one fetch, and the run
ends with that single page aggregated. -/
theorem request_no_fetch_after_hasNext_false_witness :
    ((request (fun _ => ⟨200, false, ⟨2, some "c", false,
          [⟨none, "https://github.com/O/R/issues/9"⟩]⟩⟩) "q" 5 50).queries.length ≤ 0 + 1)
    ∧ ((request (fun _ => ⟨200, false, ⟨2, some "c", false,
          [⟨none, "https://github.com/O/R/issues/9"⟩]⟩⟩) "q" 5 50).outcome =
        .table (finalizeTable (aggNodes (fun _ => ⟨2, some "c", false,
          [⟨none, "https://github.com/O/R/issues/9"⟩]⟩) 0 (0 + 1)))) :=
  ⟨request_no_fetch_after_hasNext_false.1
      (fun _ => ⟨200, false, ⟨2, some "c", false,
        [⟨none, "https://github.com/O/R/issues/9"⟩]⟩⟩) "q" 5 50 0
      ⟨2, some "c", false, [⟨none, "https://github.com/O/R/issues/9"⟩]⟩ rfl rfl,
   (request_no_fetch_after_hasNext_false.2
      (fun _ => ⟨200, false, ⟨2, some "c", false,
        [⟨none, "https://github.com/O/R/issues/9"⟩]⟩⟩) "q" 5 50 0
      (fun _ => ⟨2, some "c", false, [⟨none, "https://github.com/O/R/issues/9"⟩]⟩)
      (by decide) (fun j hj => absurd hj (by omega)) rfl rfl (fun _ => by decide)).1⟩

/-! ## Claim C5 -/

/-- Claim C5.  The page count computed on line 145 from the first page,
`int(np.ceil(issueCount / n_per_page))` read over exact arithmetic, equals
the exact integer ceiling `(totalCount + pageSize - 1) / pageSize` for every
`pageSize > 0`. -/
theorem computedNPages_eq_ceil_div (t p : Nat) (hp : 0 < p) :
    computedNPages t p = ((t + p - 1) / p : Nat) := by
  have hp0 : (0 : ℚ) < (p : ℚ) := by exact_mod_cast hp
  have hdm := Nat.div_add_mod (t + p - 1) p
  have hmod : (t + p - 1) % p < p := Nat.mod_lt _ hp
  obtain ⟨k1, k2⟩ : t ≤ p * ((t + p - 1) / p) ∧ p * ((t + p - 1) / p) < t + p := by
    generalize (t + p - 1) / p = m at hdm ⊢
    generalize hr : (t + p - 1) % p = r at hdm hmod
    generalize hpm : p * m = x at hdm ⊢
    omega
  set q := (t + p - 1) / p with hq
  rw [computedNPages, Int.ceil_eq_iff]
  have k1q : (t : ℚ) ≤ (p : ℚ) * (q : ℚ) := by exact_mod_cast k1
  have k2q : (p : ℚ) * (q : ℚ) < (t : ℚ) + (p : ℚ) := by exact_mod_cast k2
  constructor
  · push_cast
    rw [lt_div_iff₀ hp0]
    nlinarith [k2q]
  · push_cast
    rw [div_le_iff₀ hp0]
    nlinarith [k1q]

/-- Witness for `computedNPages_eq_ceil_div`: 120 items at 50 per page take
3 pages. -/
theorem computedNPages_eq_ceil_div_witness :
    computedNPages 120 50 = ((120 + 50 - 1) / 50 : Nat)
    ∧ ((120 + 50 - 1) / 50 : Nat) = 3 :=
  ⟨computedNPages_eq_ceil_div 120 50 (by decide), by decide⟩

/-! ## Claim C6 -/

/-- Claim C6.  A raw record whose author mapping is `{login: L}`, whose URL
splits on `/` with `ORG` at zero-indexed segment 3 and `REPO` at segment 4
(and `L` appearing at no position of the split), normalizes to the flat
record with `author = L`, `org = ORG`, `repo = REPO` (lines 172-174). -/
theorem normalizeRecord_round_trip (L ORG REPO : String) (r : RawRecord)
    (hauthor : r.author = some ⟨L⟩)
    (_hnotin : L ∉ pySplit '/' r.url)
    (horg : (pySplit '/' r.url)[3]? = some ORG)
    (hrepo : (pySplit '/' r.url)[4]? = some REPO) :
    normalizeRecord r = .ok ⟨some L, ORG, REPO⟩ := by
  simp [normalizeRecord, orgOf, repoOf, horg, hrepo, pyAuthorMap, hauthor]

/-- Witness for `normalizeRecord_round_trip` with `L = "alice"` on a
well-formed GitHub URL. -/
theorem normalizeRecord_round_trip_witness :
    ("alice" ∉ pySplit '/' "https://github.com/ORG/REPO/issues/1")
    ∧ normalizeRecord ⟨some ⟨"alice"⟩, "https://github.com/ORG/REPO/issues/1"⟩ =
        .ok ⟨some "alice", "ORG", "REPO"⟩ :=
  ⟨by decide,
   normalizeRecord_round_trip "alice" "ORG" "REPO"
     ⟨some ⟨"alice"⟩, "https://github.com/ORG/REPO/issues/1"⟩
     rfl (by decide) (by decide) (by decide)⟩

/-! ## Claim C7 -/

/-- Claim C7.  A raw record whose author mapping is absent (`null`)
normalizes without raising: the author map of line 172 is total and yields
the absent marker, and on a well-formed URL the whole record normalizes to a
flat record with an absent author. -/
theorem normalizeRecord_null_author (r : RawRecord) (h : r.author = none) :
    pyAuthorMap r.author = none
    ∧ ∀ org repo, orgOf r.url = some org → repoOf r.url = some repo →
        normalizeRecord r = .ok ⟨none, org, repo⟩ := by
  refine ⟨by simp [pyAuthorMap, h], fun org repo ho hr => ?_⟩
  simp [normalizeRecord, ho, hr, pyAuthorMap, h]

/-- Witness for `normalizeRecord_null_author` on a concrete record with a
deleted (null) author. -/
theorem normalizeRecord_null_author_witness :
    pyAuthorMap (RawRecord.mk none "https://github.com/O/R/issues/2").author = none
    ∧ normalizeRecord ⟨none, "https://github.com/O/R/issues/2"⟩ =
        .ok ⟨none, "O", "R"⟩ :=
  ⟨(normalizeRecord_null_author ⟨none, "https://github.com/O/R/issues/2"⟩ rfl).1,
   (normalizeRecord_null_author ⟨none, "https://github.com/O/R/issues/2"⟩ rfl).2
     "O" "R" (by decide) (by decide)⟩

/-! ## Claim C8 -/

/-- Counterexample to claim C8 as stated.  On URLs with fewer than five
`/`-segments, normalization fails with a plain Python `IndexError` from the
positional indexing of lines 173-174 (error index 3, or 4 when exactly four
segments exist) — not with any distinguished `MalformedUrlError`, which does
not exist anywhere in the source. -/
theorem normalizeRecord_short_url_cex :
    normalizeRecord ⟨none, "ab"⟩ = .error (.indexError 3)
    ∧ normalizeRecord ⟨none, "a/b/c/d"⟩ = .error (.indexError 4)
    ∧ (pySplit '/' "ab").length < 5 ∧ (pySplit '/' "a/b/c/d").length < 5 :=
  ⟨rfl, rfl, by decide, by decide⟩

/-- Claim C8, amended.  Every raw record whose URL splits into fewer than
five segments fails normalization, with the unstructured `IndexError` of
line 173 (index 3) or line 174 (index 4). -/
theorem normalizeRecord_short_url_index_error (r : RawRecord)
    (h : (pySplit '/' r.url).length < 5) :
    normalizeRecord r = .error (.indexError 3)
    ∨ normalizeRecord r = .error (.indexError 4) := by
  unfold normalizeRecord orgOf repoOf
  cases h3 : (pySplit '/' r.url)[3]? with
  | none => simp [h3]
  | some v =>
    have hlen : 3 < (pySplit '/' r.url).length := by
      by_contra hc
      rw [List.getElem?_eq_none (by omega)] at h3
      cases h3
    have h4 : (pySplit '/' r.url)[4]? = none := List.getElem?_eq_none (by omega)
    simp [h3, h4]

/-- Witness for `normalizeRecord_short_url_index_error` on a two-segment
URL. -/
theorem normalizeRecord_short_url_index_error_witness :
    normalizeRecord ⟨some ⟨"x"⟩, "a/b"⟩ = .error (.indexError 3)
    ∨ normalizeRecord ⟨some ⟨"x"⟩, "a/b"⟩ = .error (.indexError 4) :=
  normalizeRecord_short_url_index_error ⟨some ⟨"x"⟩, "a/b"⟩ (by decide)

/-! ## Claim C9 -/

/-- Claim C9, amended.  Finalizing with zero aggregated records does NOT
return an empty table: `pd.DataFrame([])` has no columns, so the column
access `self.data['author']` on line 172 raises `KeyError`.  This happens for
a run whose `range` is empty, and for a run whose pages all carried empty
`nodes` (pagination completed via `hasNextPage: false`). -/
theorem finalizeTable_zero_records_raises :
    finalizeTable [] = .error .keyError
    ∧ (∀ (resp : Nat → HttpResponse) (query : String) (nPerPage : Nat),
        request resp query 0 nPerPage = ⟨.table (.error .keyError), []⟩)
    ∧ (∀ (resp : Nat → HttpResponse) (query : String) (nPages nPerPage : Nat),
        0 < nPages →
        (resp 0).status = 200 → (resp 0).hasErrorsKey = false →
        (resp 0).search.issueCount ≠ 0 → (resp 0).search.hasNextPage = false →
        (resp 0).search.nodes = [] →
        (request resp query nPages nPerPage).outcome = .table (.error .keyError)) := by
  refine ⟨rfl, fun resp query nPP => rfl, ?_⟩
  intro resp query nPages nPerPage hpos hs he hic hfalse hnodes
  have hcl : classifyResponse (resp 0) = .ok (resp 0).search := by
    simp [classifyResponse, hs, he]
  have h := (runLoop_stop resp query nPerPage (fun _ => (resp 0).search) 0 0 nPages
      none [] (by omega) (fun j hj => absurd hj (by omega))
      (by simpa using hcl) (by simpa using hfalse) (fun _ => by simpa using hic)).1
  rw [request, h]
  simp [aggNodes, hnodes, finalizeTable]

/-- Counterexample to claim C9 as stated.  A run whose pagination completes
normally (first page says `hasNextPage: false`) but whose only page carried
an empty record list ends with a `KeyError`, not with a successful empty
table: `resultTable` is `none`. -/
theorem finalizeTable_zero_records_cex :
    (request (fun _ => ⟨200, false, ⟨7, some "c", false, []⟩⟩) "q" 100 50).outcome =
        .table (.error .keyError)
    ∧ (request (fun _ => ⟨200, false, ⟨7, some "c", false, []⟩⟩) "q" 100 50).outcome.resultTable
        = none :=
  ⟨rfl, rfl⟩

/-- Witness for `finalizeTable_zero_records_raises` at a concrete run whose
single page has `nodes = []`. -/
theorem finalizeTable_zero_records_witness :
    (request (fun _ => ⟨200, false, ⟨9, none, false, []⟩⟩) "x" 4 25).outcome =
      .table (.error .keyError) :=
  finalizeTable_zero_records_raises.2.2 (fun _ => ⟨200, false, ⟨9, none, false, []⟩⟩)
    "x" 4 25 (by decide) rfl rfl (by decide) rfl rfl

/-! ## Claim C10 -/

/-- Claim C10.  When the first page reports `hasNextPage: true` but a
`null` `endCursor`, the second fetch is still issued (it is the second
element of the query trace), and its query document contains the literal
clause `after: "None"` — Python `'%s' % None` renders the absent cursor as
the text `None` on line 123 — rather than the run failing. -/
theorem request_null_cursor_still_fetches
    (resp : Nat → HttpResponse) (query : String) (nPages nPerPage : Nat)
    (h2 : 2 ≤ nPages)
    (hs : (resp 0).status = 200) (he : (resp 0).hasErrorsKey = false)
    (hcount : (resp 0).search.issueCount ≠ 0)
    (hnext : (resp 0).search.hasNextPage = true)
    (hcur : (resp 0).search.endCursor = none) :
    (request resp query nPages nPerPage).queries[1]? =
        some (buildDoc query nPerPage 1 none)
    ∧ ∃ pre post, buildDoc query nPerPage 1 none = pre ++ "after: \"None\"" ++ post := by
  obtain ⟨n, rfl⟩ : ∃ n, nPages = n + 2 := ⟨nPages - 2, by omega⟩
  have hcl : classifyResponse (resp 0) = .ok (resp 0).search := by
    simp [classifyResponse, hs, he]
  constructor
  · have hstep : request resp query (n + 2) nPerPage =
        ⟨(runLoop resp query nPerPage (n + 1) 1 (resp 0).search.endCursor
            ([] ++ (resp 0).search.nodes)).outcome,
         buildDoc query nPerPage 0 none ::
           (runLoop resp query nPerPage (n + 1) 1 (resp 0).search.endCursor
             ([] ++ (resp 0).search.nodes)).queries⟩ := by
      simp only [request, runLoop, hcl]
      rw [if_neg (fun hh => hcount hh.2), if_neg (by simp [hnext])]
    rw [hstep, hcur]
    simpa using runLoop_queries_head resp query nPerPage (n + 1) 1 none
      ([] ++ (resp 0).search.nodes) (by omega)
  · refine ⟨gqlTemplatePre ++ (("first: " ++ toString nPerPage) ++ (", " ++
        (("query: \"" ++ (query ++ "\"")) ++ (", " ++ ("type: ISSUE" ++ ", "))))),
      gqlTemplatePost, ?_⟩
    have hlit : ("after: \"" : String) ++ ("None" ++ "\"") = "after: \"None\"" := rfl
    rw [← hlit]
    simp [buildDoc, githubSearchQuery, joinComma, pyStrOpt, strAppend_assoc]

/-- Witness for `request_null_cursor_still_fetches`: a first page with
`hasNextPage: true` and no cursor still triggers a second fetch whose
document carries `after: "None"`. -/
theorem request_null_cursor_still_fetches_witness :
    (request (fun _ => ⟨200, false, ⟨5, none, true, []⟩⟩) "q" 2 50).queries[1]? =
        some (buildDoc "q" 50 1 none)
    ∧ ∃ pre post, buildDoc "q" 50 1 none = pre ++ "after: \"None\"" ++ post :=
  request_null_cursor_still_fetches (fun _ => ⟨200, false, ⟨5, none, true, []⟩⟩)
    "q" 2 50 (by decide) rfl rfl (by decide) rfl rfl

end GithubActivity
